import Mathlib

/-!
Verification of the directory-service core: role hierarchy, session tokens,
credential handling, account-state guards and the listing query builder.
Definitions are shallow embeddings of the Python source under
`src/` (file and symbol named at each definition); behavior of external
collaborators (pyjwt, passlib, the document store) is modelled from their
documented semantics where the source delegates to them.
-/

/-- The four role kinds of `models.UserType` (src/models.py). -/
inductive UserType where
  | KURIOUS_SUPERUSER
  | KURIOUS_SALES
  | CLIENT_ADMIN
  | CLIENT_USER
deriving DecidableEq, Repr, Fintype

/-- The fixed priority table inside `has_permission_to_create`
(src/routers/users.py, lines 18-23). -/
def priority : UserType → Nat
  | .KURIOUS_SUPERUSER => 4
  | .KURIOUS_SALES => 3
  | .CLIENT_ADMIN => 2
  | .CLIENT_USER => 1

/-- `has_permission_to_create(current_user_type, new_user_type)`
(src/routers/users.py, lines 17-26): a priority-4 actor may create anything,
otherwise creation requires strictly greater priority. -/
def has_permission_to_create (current_user_type new_user_type : UserType) : Bool :=
  if priority current_user_type = 4 then
    true
  else
    priority current_user_type > priority new_user_type

/-- A JWT claims payload as built by `AuthHandler.encode_token`
(src/authentication.py, lines 27-33): expiry instant, issued-at instant and
subject (the user id).  Instants are minutes on an abstract clock. -/
structure Payload where
  exp : Nat
  iat : Nat
  sub : String
deriving DecidableEq, Repr

/-- Model of the HS256 signature the pyjwt collaborator computes over a
payload with the symmetric secret: an idealized MAC, injective in
(secret, payload), with no forgeries or collisions. -/
def jwt_sign (secret : String) (p : Payload) : String :=
  secret ++ "|" ++ toString p.exp ++ "|" ++ toString p.iat ++ "|" ++ p.sub

/-- A bearer token as seen by `decode_token`: either a structurally
well-formed signed payload (whose signature may or may not be the one the
secret produces) or a string that does not parse as a JWT at all. -/
inductive Token where
  | signed (payload : Payload) (sig : String)
  | malformed (raw : String)
deriving DecidableEq, Repr

/-- Failure of the pyjwt collaborator when `AuthHandler.secret` is `None`
(the key is absent from the environment): `jwt.encode`/HMAC key preparation
raises at call time. -/
inductive KeyFailure where
  | missingKey
deriving DecidableEq, Repr

/-- `AuthHandler.encode_token(user_id, jwt_expire_minutes)`
(src/authentication.py, lines 27-33): builds the payload with
exp = now + jwt_expire_minutes, iat = now, sub = user_id, and signs it with
`self.secret`.  `self.secret` is `os.getenv('JWT_SECRET')`, hence an
`Option String`; pyjwt raises at issuance time when it is `none`. -/
def encode_token (secret : Option String) (now : Nat) (user_id : String)
    (jwt_expire_minutes : Nat) : Except KeyFailure Token :=
  match secret with
  | none => .error .missingKey
  | some s =>
      let payload : Payload := ⟨now + jwt_expire_minutes, now, user_id⟩
      .ok (.signed payload (jwt_sign s payload))

/-- The three outcomes of `AuthHandler.decode_token`
(src/authentication.py, lines 35-45): the subject on success, or the
expired-token failure (`jwt.ExpiredSignatureError`), or the invalid-token
failure (`jwt.InvalidTokenError`). -/
inductive DecodeResult where
  | ok (sub : String)
  | expiredToken
  | invalidToken
deriving DecidableEq, Repr

/-- `AuthHandler.decode_token(token)` (src/authentication.py, lines 35-45),
with the pyjwt collaborator modelled by its documented semantics: the
signature is verified first (a mismatch or unparseable token raises
`InvalidTokenError`), then the exp claim is checked; with zero leeway the
token is expired when exp is at or before the current instant
(`ExpiredSignatureError`). -/
def decode_token (secret : String) (now : Nat) (t : Token) : DecodeResult :=
  match t with
  | .malformed _ => .invalidToken
  | .signed p sig =>
      if sig = jwt_sign secret p then
        if p.exp ≤ now then .expiredToken else .ok p.sub
      else .invalidToken

/-- The HTTP boundary of `decode_token`: both failure kinds raise
`HTTPException` with status 401 but carry distinct detail strings
(src/authentication.py, lines 40-45). -/
def decode_failure_response : DecodeResult → Option (Nat × String)
  | .ok _ => none
  | .expiredToken => some (401, "Signature has expired")
  | .invalidToken => some (401, "Invalid token")

/-- The environment as read through `os.getenv` at module import time
(src/authentication.py, lines 10-12): both variables may be absent. -/
structure ProcessEnv where
  jwt_secret : Option String
  jwt_expire_minutes : Option String
deriving DecidableEq, Repr

/-- Exceptions `int(...)` can raise during module import
(src/authentication.py, line 12): `int(None)` raises `TypeError`, an
unparseable string raises `ValueError`.  Either aborts process startup. -/
inductive StartupFailure where
  | intOfNone
  | intParseFailure (s : String)
deriving DecidableEq, Repr

/-- The module-level configuration produced by importing
src/authentication.py: `JWT_SECRET = os.getenv('JWT_SECRET')` (kept even
when absent) and `JWT_EXPIRE_MINUTES = int(os.getenv('JWT_EXPIRE_MINUTES'))`. -/
structure AuthModuleConfig where
  JWT_SECRET : Option String
  JWT_EXPIRE_MINUTES : Int
deriving DecidableEq, Repr

/-- The value of a decimal digit character, model of the digit handling
inside the Python `int(...)` builtin. -/
def py_digit_val (c : Char) : Option Nat :=
  if c.isDigit then some (c.toNat - 48) else none

/-- Accumulate the decimal digits of a numeral, failing on any non-digit,
model of the Python `int(...)` builtin on a digit string. -/
def py_digits_to_nat (acc : Nat) : List Char → Option Nat
  | [] => some acc
  | c :: cs =>
      match py_digit_val c with
      | none => none
      | some d => py_digits_to_nat (acc * 10 + d) cs

/-- Model of the Python `int(str)` builtin on the strings of interest: an
optional minus sign followed by at least one decimal digit; anything else
(including the empty string) fails. -/
def py_int_of_string (s : String) : Option Int :=
  match s.toList with
  | [] => none
  | c :: cs =>
      if c = '-' then
        match cs with
        | [] => none
        | _ => (py_digits_to_nat 0 cs).map (fun n => -(n : Int))
      else (py_digits_to_nat 0 (c :: cs)).map (fun n => (n : Int))

/-- Importing src/authentication.py (lines 10-12): `os.getenv('JWT_SECRET')`
is stored without any check, while the expiry variable is passed through
`int(...)`, which raises when the variable is absent or unparseable. -/
def load_auth_module (env : ProcessEnv) : Except StartupFailure AuthModuleConfig :=
  match env.jwt_expire_minutes with
  | none => .error .intOfNone
  | some s =>
      match py_int_of_string s with
      | none => .error (.intParseFailure s)
      | some n => .ok ⟨env.jwt_secret, n⟩

/-- The bcrypt format tag: passlib identifies a hash as bcrypt by this
leading magic (modelled for the `CryptContext(schemes=["bcrypt"])` of
src/authentication.py, line 18). -/
def bcrypt_magic : List Char := ['$', '2', 'b', '$', '1', '2', '$']

/-- Strip an expected leading character sequence, failing when the input
does not start with it. -/
def stripMagic : List Char → List Char → Option (List Char)
  | [], rest => some rest
  | _ :: _, [] => none
  | m :: ms, c :: cs => if c = m then stripMagic ms cs else none

/-- Passlib hash identification: a string is recognized as a bcrypt hash
exactly when it carries the bcrypt magic; the remainder is the hash body.
Any other string is unidentifiable. -/
def identify_bcrypt (h : String) : Option String :=
  match stripMagic bcrypt_magic h.toList with
  | none => none
  | some rest => some ⟨rest⟩

/-- `AuthHandler.get_password_hash(password)` (src/authentication.py,
lines 21-22), with the bcrypt collaborator idealized: the hash is the
bcrypt magic followed by a body that deterministically encodes the
password (collision-free, fixed salt). -/
def get_password_hash (password : String) : String :=
  ⟨bcrypt_magic ++ password.toList⟩

/-- The failure passlib raises when `CryptContext.verify` is handed a hash
it cannot identify: `UnknownHashError`, a `ValueError`.  Nothing in
src/authentication.py or src/routers catches it. -/
inductive PasslibFailure where
  | unknownHash
deriving DecidableEq, Repr

/-- `AuthHandler.verify_password(plain_password, hashed_password)`
(src/authentication.py, lines 24-25): delegates to `pwd_context.verify`,
which first identifies the hash — raising `UnknownHashError` on an
unidentifiable string — and otherwise reports whether the hash matches
the plaintext. -/
def verify_password (plain_password hashed_password : String) :
    Except PasslibFailure Bool :=
  match identify_bcrypt hashed_password with
  | none => .error .unknownHash
  | some body => .ok (body == plain_password)

/-- A stored user document, the fields of `models.UserBase` plus the
database id and the hashed password (src/models.py, `UserBase` /
`UserBaseWithPass`).  Timestamps are instants on the abstract clock. -/
structure UserRecord where
  id : String
  username : String
  email : String
  firstName : String
  lastName : String
  phoneNumber : String
  companyName : String
  userType : UserType
  accountStatus : String
  password : String
  lastLogin : Nat
  dateJoined : Nat
deriving DecidableEq, Repr

/-- The request body of the register endpoint (`models.RegisterUser`,
src/models.py): no authentication data is part of it. -/
structure RegisterUser where
  email : String
  password : String
  firstName : String
  lastName : String
  phoneNumber : String
  companyName : String
  userType : UserType
deriving DecidableEq, Repr

/-- The `register` handler (src/routers/auth.py, lines 22-100) as the code
actually executes: the `auth_wrapper` dependency, the ACTIVE-status check on
the current user and the `has_permission_to_create` gate are all commented
out in the source, so the operation takes no authenticated caller at all.
It hashes the password, sets username := email, fills the `UserBase`
defaults (accountStatus "ACTIVE", lastLogin and dateJoined now), rejects
duplicate email then duplicate username with 409, and otherwise inserts
the record (the store assigns `newId`). -/
def register (newUser : RegisterUser) (newId : String) (now : Nat)
    (db : List UserRecord) :
    Except (Nat × String) UserRecord × List UserRecord :=
  let hashed := get_password_hash newUser.password
  let username := newUser.email
  if (db.find? (fun u => u.email == newUser.email)).isSome then
    (.error (409, "User with email " ++ newUser.email ++ " already exists"), db)
  else if (db.find? (fun u => u.username == username)).isSome then
    (.error (409, "User with username " ++ username ++ " already exists"), db)
  else
    let created : UserRecord :=
      { id := newId, username := username, email := newUser.email,
        firstName := newUser.firstName, lastName := newUser.lastName,
        phoneNumber := newUser.phoneNumber, companyName := newUser.companyName,
        userType := newUser.userType, accountStatus := "ACTIVE",
        password := hashed, lastLogin := now, dateJoined := now }
    (.ok created, db ++ [created])

/-- The `login` handler (src/routers/auth.py, lines 104-128): point lookup
by email; a missing user or a failed password check both raise 401 with the
detail "Invalid email and/or password" before anything is written; on
success `lastLogin` is set to now and a token is issued for the user id.
An unidentifiable stored hash makes `verify_password` raise, which no code
catches (a 500 at the boundary). -/
def login (secret : Option String) (ttl now : Nat) (email password : String)
    (db : List UserRecord) :
    Except (Nat × String) (String × String × UserType × Token) × List UserRecord :=
  match db.find? (fun u => u.email == email) with
  | none => (.error (401, "Invalid email and/or password"), db)
  | some user =>
      match verify_password password user.password with
      | .error _ => (.error (500, "hash could not be identified"), db)
      | .ok false => (.error (401, "Invalid email and/or password"), db)
      | .ok true =>
          let db2 := db.map (fun v =>
            if v.id == user.id then { v with lastLogin := now } else v)
          match encode_token secret now user.id ttl with
          | .error _ => (.error (500, "invalid jwt key"), db2)
          | .ok tok => (.ok (user.id, user.email, user.userType, tok), db2)

/-- A sample stored user whose password hash is the hash of "Right1pw". -/
def sampleUserA : UserRecord :=
  { id := "id1", username := "ann@x.example", email := "ann@x.example",
    firstName := "a", lastName := "Bobbit", phoneNumber := "555-0101",
    companyName := "Acme", userType := .CLIENT_USER,
    accountStatus := "ACTIVE", password := get_password_hash "Right1pw",
    lastLogin := 0, dateJoined := 0 }

/-- The `update_password` handler (src/routers/auth.py, lines 152-213,
`PUT /resetPassword`): decodes the JWT (401 on expiry or invalidity), looks
the subject up (404 when absent), rejects with 403 unless the account
status is ACTIVE or PENDING, and otherwise stores the hash of the new
password and sets the status to ACTIVE. -/
def update_password (secret : String) (now : Nat) (jwt : Token)
    (password : String) (db : List UserRecord) :
    Except (Nat × String) String × List UserRecord :=
  match decode_token secret now jwt with
  | .expiredToken => (.error (401, "Signature has expired"), db)
  | .invalidToken => (.error (401, "Invalid token"), db)
  | .ok userId =>
      match db.find? (fun u => u.id == userId) with
      | none =>
          (.error (404, "Access token is valid, but the associated user with userId "
            ++ userId ++ " does not exist."), db)
      | some u =>
          if !(u.accountStatus == "ACTIVE" || u.accountStatus == "PENDING") then
            (.error (403,
              "Current user is not active or pending registration, and not authorized."), db)
          else
            let pd := get_password_hash password
            (.ok "User password updated; user accountStatus set to ACTIVE.",
              db.map (fun v => if v.id == userId then
                { v with password := pd, accountStatus := "ACTIVE" } else v))

/-- A sample stored user in the PENDING state, subject of a reset link. -/
def samplePendingUser : UserRecord :=
  { id := "id1", username := "pat@x.example", email := "pat@x.example",
    firstName := "Pat", lastName := "Lee", phoneNumber := "555-0102",
    companyName := "Acme", userType := .CLIENT_USER,
    accountStatus := "PENDING", password := get_password_hash "Old1pass",
    lastLogin := 0, dateJoined := 0 }

/-- A token of the PCRE pattern fragment the listing filters can reach:
a literal character or the dot wildcard.  The model covers exactly the
patterns built from literals and the dot; the remaining PCRE
metacharacters are listed in `pcre_meta` and kept out of scope. -/
inductive RTok where
  | lit (c : Char)
  | anyChar
deriving DecidableEq, Repr

/-- The PCRE metacharacters.  A filter string made only of characters
outside this list reaches the regex engine as a sequence of literals. -/
def pcre_meta : List Char :=
  ['.', '*', '+', '?', '[', ']', '(', ')', '^', '$', '\\', '|', '\x7b', '\x7d']

/-- Whether one pattern token matches one subject character,
case-insensitively when `ci` is set (the "i" of `"$options": "i"`); the
dot matches every character except a newline. -/
def rtokMatches (ci : Bool) (t : RTok) (c : Char) : Bool :=
  match t with
  | .anyChar => !(c == '\n')
  | .lit l => if ci then l.toLower == c.toLower else l == c

/-- Whether the pattern matches a contiguous block starting at the head of
the subject. -/
def matchHere (ci : Bool) : List RTok → List Char → Bool
  | [], _ => true
  | _ :: _, [] => false
  | t :: ts, c :: cs => rtokMatches ci t c && matchHere ci ts cs

/-- Unanchored search: whether the pattern matches starting at some
position of the subject — the semantics of the MongoDB `$regex` operator,
which selects a document when the pattern matches anywhere in the field. -/
def searchFrom (ci : Bool) (pat : List RTok) : List Char → Bool
  | [] => matchHere ci pat []
  | c :: cs => matchHere ci pat (c :: cs) || searchFrom ci pat cs

/-- How the regex engine reads the filter strings in scope: the dot becomes
the wildcard, every other character a literal.  This is the point the
claim calls injection: the filter string is handed to `$regex` unescaped
(src/routers/users.py, lines 57-64), so its characters are pattern syntax,
not text. -/
def parseSimpleRegex (p : String) : List RTok :=
  p.toList.map (fun c => if c == '.' then .anyChar else .lit c)

/-- The `$regex` match as executed by the store on one field value. -/
def regex_search (ci : Bool) (pat s : String) : Bool :=
  searchFrom ci (parseSimpleRegex pat) s.toList

/-- The `$match` predicate `get_users` builds (src/routers/users.py,
lines 56-64): each supplied, non-empty filter contributes a
case-insensitive `$regex` condition on its field (`if firstName:` makes
both an absent and an empty filter contribute nothing). -/
def user_match_query (firstName lastName companyName : Option String)
    (u : UserRecord) : Bool :=
  (match firstName with
   | none => true
   | some f => if f.isEmpty then true else regex_search true f u.firstName) &&
  (match lastName with
   | none => true
   | some f => if f.isEmpty then true else regex_search true f u.lastName) &&
  (match companyName with
   | none => true
   | some f => if f.isEmpty then true else regex_search true f u.companyName)

/-- Modelled from the spec: the match semantics the spec asserts for the
free-text filters — the record field contains the filter text as a
case-insensitive substring, every character taken literally. -/
def startsWithChars : List Char → List Char → Bool
  | [], _ => true
  | _ :: _, [] => false
  | a :: ms, b :: cs => a == b && startsWithChars ms cs

/-- Modelled from the spec: whether `sub` occurs as a contiguous substring
of the subject. -/
def hasSubChars (sub : List Char) : List Char → Bool
  | [] => startsWithChars sub []
  | c :: cs => startsWithChars sub (c :: cs) || hasSubChars sub cs

/-- Modelled from the spec: case-insensitive literal substring
containment of the filter text in the field value. -/
def spec_substring_ci (filterText s : String) : Bool :=
  hasSubChars (filterText.toList.map Char.toLower) (s.toList.map Char.toLower)

/-- The query plan `get_users` assembles (src/routers/users.py,
lines 65-101): the three optional `$regex` filters plus
`$skip = (page - 1) * pageSize` and `$limit = pageSize`, computed with no
validation of either value.  The count pipeline reuses the same match with
no skip or limit. -/
structure UsersQueryPlan where
  firstName : Option String
  lastName : Option String
  companyName : Option String
  skip : Int
  limit : Int
deriving DecidableEq, Repr

/-- Plan construction in `get_users`: every integer input produces a plan. -/
def get_users_plan (page pageSize : Int)
    (firstName lastName companyName : Option String) : UsersQueryPlan :=
  { firstName := firstName, lastName := lastName, companyName := companyName,
    skip := (page - 1) * pageSize, limit := pageSize }

/-- The aggregate executor (document-store collaborator): `$limit` must be
positive and `$skip` nonnegative — otherwise the pipeline is rejected at
execution time — and otherwise the filtered records are paged by skip and
limit. -/
def run_users_plan (plan : UsersQueryPlan) (db : List UserRecord) :
    Except String (List UserRecord) :=
  if plan.limit ≤ 0 then .error "the limit must be positive"
  else if plan.skip < 0 then .error "the skip must be nonnegative"
  else .ok (((db.filter
      (user_match_query plan.firstName plan.lastName plan.companyName)).drop
        plan.skip.toNat).take plan.limit.toNat)

/-- The listing portion of the `get_users` handler (src/routers/users.py,
lines 56-121), after the token and role gates: builds the plan, runs it
and the count pipeline inside `try`, and maps any executor exception to a
500 (`except Exception ... HTTPException(500, ...)`); on success returns
the page and the total count of matching records. -/
def get_users_listing (page pageSize : Int)
    (firstName lastName companyName : Option String) (db : List UserRecord) :
    Except (Nat × String) (List UserRecord × Nat) :=
  let plan := get_users_plan page pageSize firstName lastName companyName
  match run_users_plan plan db with
  | .error e => .error (500, e)
  | .ok page_records =>
      .ok (page_records,
        (db.filter (user_match_query firstName lastName companyName)).length)

/-- Claim C2: for the fixed priority mapping SUPERUSER=4, SALES=3,
CLIENT_ADMIN=2, CLIENT_USER=1, `has_permission_to_create a t` is true exactly
when the actor is the superuser role or has strictly greater priority than the
target; in particular the superuser may create every role, CLIENT_ADMIN may
not create CLIENT_ADMIN, and CLIENT_USER may create nothing. -/
theorem canCreate_characterization :
    (priority .KURIOUS_SUPERUSER = 4 ∧ priority .KURIOUS_SALES = 3 ∧
      priority .CLIENT_ADMIN = 2 ∧ priority .CLIENT_USER = 1) ∧
    (∀ a t : UserType, has_permission_to_create a t = true ↔
      (a = .KURIOUS_SUPERUSER ∨ priority a > priority t)) ∧
    (∀ t : UserType, has_permission_to_create .KURIOUS_SUPERUSER t = true) ∧
    has_permission_to_create .CLIENT_ADMIN .CLIENT_ADMIN = false ∧
    (∀ t : UserType, has_permission_to_create .CLIENT_USER t = false) := by
  refine ⟨⟨rfl, rfl, rfl, rfl⟩, ?_, ?_, rfl, ?_⟩ <;> decide

/-- Claim C3: for every identity i and ttl t > 0, decoding a token right
after issuing it for i returns i; decoding it once t minutes have elapsed
fails as expired; a token with a wrong signature, and a structurally
malformed token, fail as invalid. -/
theorem token_issue_validate (secret i : String) (t now now' : Nat)
    (ht : 0 < t) (helapsed : now + t ≤ now') :
    (∀ tok, encode_token (some secret) now i t = .ok tok →
        decode_token secret now tok = .ok i ∧
        decode_token secret now' tok = .expiredToken) ∧
    (∀ p sig, sig ≠ jwt_sign secret p →
        decode_token secret now (.signed p sig) = .invalidToken) ∧
    (∀ raw, decode_token secret now (.malformed raw) = .invalidToken) := by
  have hdec : ∀ check : Nat,
      decode_token secret check
        (.signed ⟨now + t, now, i⟩ (jwt_sign secret ⟨now + t, now, i⟩)) =
        if now + t ≤ check then .expiredToken else .ok i := by
    intro check
    simp [decode_token]
  refine ⟨?_, ?_, ?_⟩
  · intro tok htok
    simp only [encode_token, Except.ok.injEq] at htok
    subst htok
    refine ⟨?_, ?_⟩
    · rw [hdec now, if_neg (by omega)]
    · rw [hdec now', if_pos helapsed]
  · intro p sig hsig
    simp [decode_token, hsig]
  · intro raw
    rfl

/-- Witness for C3 at secret "s", identity "u1", ttl 5, issued at instant 0
and re-validated at instant 7. -/
theorem token_issue_validate_witness :
    decode_token "s" 0 (.signed ⟨5, 0, "u1"⟩ (jwt_sign "s" ⟨5, 0, "u1"⟩)) = .ok "u1" ∧
    decode_token "s" 7 (.signed ⟨5, 0, "u1"⟩ (jwt_sign "s" ⟨5, 0, "u1"⟩)) = .expiredToken :=
  (token_issue_validate "s" "u1" 5 0 7 (by decide) (by decide)).1 _ rfl

/-- Claim C4: decoding distinguishes the two failure kinds (expired expiry
vs wrong signature or structure, distinct constructors), and the boundary
maps both to status 401, with different detail strings internally. -/
theorem decode_failure_kinds :
    (∀ secret (now : Nat) (p : Payload), p.exp ≤ now →
        decode_token secret now (.signed p (jwt_sign secret p)) = .expiredToken) ∧
    (∀ secret (now : Nat) p sig, sig ≠ jwt_sign secret p →
        decode_token secret now (.signed p sig) = .invalidToken) ∧
    (∀ secret (now : Nat) raw, decode_token secret now (.malformed raw) = .invalidToken) ∧
    DecodeResult.expiredToken ≠ DecodeResult.invalidToken ∧
    (decode_failure_response .expiredToken).map Prod.fst = some 401 ∧
    (decode_failure_response .invalidToken).map Prod.fst = some 401 ∧
    decode_failure_response .expiredToken ≠ decode_failure_response .invalidToken := by
  refine ⟨?_, ?_, fun _ _ _ => rfl, by decide, rfl, rfl, by decide⟩
  · intro secret now p hexp
    simp [decode_token, hexp]
  · intro secret now p sig hsig
    simp [decode_token, hsig]

/-- Witness for C4: an expired but correctly signed token at instant 9, and
a token whose signature does not match, both at concrete inputs. -/
theorem decode_failure_kinds_witness :
    decode_token "s" 9 (.signed ⟨5, 0, "u"⟩ (jwt_sign "s" ⟨5, 0, "u"⟩)) = .expiredToken ∧
    decode_token "s" 0 (.signed ⟨5, 0, "u"⟩ "bad") = .invalidToken :=
  ⟨decode_failure_kinds.1 "s" 9 ⟨5, 0, "u"⟩ (by decide),
   decode_failure_kinds.2.1 "s" 0 ⟨5, 0, "u"⟩ "bad" (by decide)⟩

/-- Counterexample to C9: with JWT_SECRET absent but JWT_EXPIRE_MINUTES set,
module import succeeds (startup is not fatal), and the missing secret then
surfaces as a runtime failure during token issuance. -/
theorem secret_absence_not_startup_fatal :
    load_auth_module ⟨none, some "20"⟩ = .ok ⟨none, 20⟩ ∧
    encode_token none 0 "u1" 20 = .error .missingKey :=
  ⟨rfl, rfl⟩

/-- Claim C9 as amended: absence of JWT_EXPIRE_MINUTES is the fatal startup
condition; absence of JWT_SECRET is not checked at startup — the module
loads with a `none` secret and the failure manifests as a runtime error at
token issuance. -/
theorem jwt_secret_absence_is_runtime :
    (∀ sec : Option String, load_auth_module ⟨sec, none⟩ = .error .intOfNone) ∧
    load_auth_module ⟨none, some "20"⟩ = .ok ⟨none, 20⟩ ∧
    (∀ (now : Nat) (u : String) (ttl : Nat),
        encode_token none now u ttl = .error .missingKey) :=
  ⟨fun _ => rfl, rfl, fun _ _ _ => rfl⟩

/-- Counterexample to C8: on a malformed (unidentifiable) hash string the
verify operation raises `UnknownHashError` instead of returning a
non-match. -/
theorem verify_malformed_hash_raises :
    verify_password "Abcdef12" "not-a-bcrypt-hash" = .error .unknownHash ∧
    verify_password "Abcdef12" "not-a-bcrypt-hash" ≠ .ok false := by
  refine ⟨rfl, ?_⟩
  intro h
  simp only [show verify_password "Abcdef12" "not-a-bcrypt-hash" =
    .error .unknownHash from rfl] at h
  exact Except.noConfusion h

/-- Claim C8 as amended: verify returns a boolean only for hashes the
bcrypt context can identify; on every malformed (unidentifiable) hash
string it raises `UnknownHashError` — an exception no caller catches —
rather than treating the hash as non-matching. -/
theorem verify_password_on_malformed (p h : String) :
    (∀ body, identify_bcrypt h = some body →
        verify_password p h = .ok (body == p)) ∧
    (identify_bcrypt h = none →
        verify_password p h = .error .unknownHash) := by
  constructor
  · intro body hb
    simp [verify_password, hb]
  · intro hb
    simp [verify_password, hb]

/-- Witness for the amended C8: a round-tripped hash verifies, and the
string "garbage" raises. -/
theorem verify_password_on_malformed_witness :
    verify_password "pw" (get_password_hash "pw") = .ok true ∧
    verify_password "pw" "garbage" = .error .unknownHash :=
  ⟨(verify_password_on_malformed "pw" (get_password_hash "pw")).1 "pw" rfl,
   (verify_password_on_malformed "pw" "garbage").2 rfl⟩

/-- Claim C1, evaluated on the code: on an empty user collection — where no
authenticated ACTIVE current user can exist at all — an unauthenticated
registration request targeting the highest role KURIOUS_SUPERUSER succeeds
with a created record instead of being rejected as Forbidden: the
role-hierarchy and account-state gates of the claim are commented out in
the source. -/
theorem register_ungated_succeeds :
    register ⟨"eve@evil.example", "Abcdef12", "Eve", "Adams", "555-0100",
        "Acme", .KURIOUS_SUPERUSER⟩ "id9" 3 [] =
      (.ok
        { id := "id9", username := "eve@evil.example",
          email := "eve@evil.example", firstName := "Eve",
          lastName := "Adams", phoneNumber := "555-0100",
          companyName := "Acme", userType := .KURIOUS_SUPERUSER,
          accountStatus := "ACTIVE",
          password := get_password_hash "Abcdef12",
          lastLogin := 3, dateJoined := 3 },
       [{ id := "id9", username := "eve@evil.example",
          email := "eve@evil.example", firstName := "Eve",
          lastName := "Adams", phoneNumber := "555-0100",
          companyName := "Acme", userType := .KURIOUS_SUPERUSER,
          accountStatus := "ACTIVE",
          password := get_password_hash "Abcdef12",
          lastLogin := 3, dateJoined := 3 }]) := rfl

/-- Claim C10: a login attempt with an unregistered email and one with a
registered email but a wrong password (against a well-formed stored hash)
produce the very same outcome — 401 with detail "Invalid email and/or
password" — and in both cases the stored records, lastLogin included, are
returned unchanged. -/
theorem login_uniform_failure (secret : Option String) (ttl now : Nat)
    (db : List UserRecord) (email1 pw1 email2 pw2 : String) (u : UserRecord)
    (h1 : db.find? (fun v => v.email == email1) = none)
    (h2 : db.find? (fun v => v.email == email2) = some u)
    (h3 : verify_password pw2 u.password = .ok false) :
    login secret ttl now email1 pw1 db =
      (.error (401, "Invalid email and/or password"), db) ∧
    login secret ttl now email2 pw2 db =
      (.error (401, "Invalid email and/or password"), db) ∧
    login secret ttl now email1 pw1 db = login secret ttl now email2 pw2 db := by
  refine ⟨?_, ?_, ?_⟩
  · simp [login, h1]
  · simp [login, h2, h3]
  · simp [login, h1, h2, h3]

/-- Witness for C10 on the one-record store `[sampleUserA]`: the unknown
email "zed@x.example" and the wrong password "Wrong1pw" yield the same 401
outcome with the store unchanged. -/
theorem login_uniform_failure_witness :
    login (some "s") 20 9 "zed@x.example" "pw" [sampleUserA] =
      (.error (401, "Invalid email and/or password"), [sampleUserA]) ∧
    login (some "s") 20 9 "ann@x.example" "Wrong1pw" [sampleUserA] =
      (.error (401, "Invalid email and/or password"), [sampleUserA]) :=
  ⟨(login_uniform_failure (some "s") 20 9 [sampleUserA] "zed@x.example" "pw"
      "ann@x.example" "Wrong1pw" sampleUserA (by decide) (by decide) rfl).1,
   (login_uniform_failure (some "s") 20 9 [sampleUserA] "zed@x.example" "pw"
      "ann@x.example" "Wrong1pw" sampleUserA (by decide) (by decide) rfl).2.1⟩

/-- Claim C5: with a valid token whose subject exists, the password-reset
completion succeeds exactly when the account status is ACTIVE or PENDING;
a DEACTIVATED account gets 403 with the store untouched; on success the
account status becomes ACTIVE and its stored credential becomes the hash
of the new password. -/
theorem update_password_gate (secret : String) (now : Nat) (jwt : Token)
    (pw i : String) (db : List UserRecord) (u : UserRecord)
    (hdec : decode_token secret now jwt = .ok i)
    (hfind : db.find? (fun v => v.id == i) = some u) :
    (u.accountStatus = "DEACTIVATED" →
        update_password secret now jwt pw db =
          (.error (403,
            "Current user is not active or pending registration, and not authorized."),
           db)) ∧
    ((u.accountStatus = "ACTIVE" ∨ u.accountStatus = "PENDING") →
        update_password secret now jwt pw db =
          (.ok "User password updated; user accountStatus set to ACTIVE.",
           db.map (fun v => if v.id == i then
             { v with password := get_password_hash pw,
                      accountStatus := "ACTIVE" } else v))) ∧
    ((update_password secret now jwt pw db).fst.isOk = true ↔
        (u.accountStatus = "ACTIVE" ∨ u.accountStatus = "PENDING")) := by
  refine ⟨?_, ?_, ?_⟩
  · intro hst
    simp [update_password, hdec, hfind, hst]
  · intro hst
    rcases hst with hst | hst <;> simp [update_password, hdec, hfind, hst]
  · by_cases hA : u.accountStatus = "ACTIVE"
    · simp [update_password, hdec, hfind, hA, Except.isOk, Except.toBool]
    · by_cases hP : u.accountStatus = "PENDING"
      · simp [update_password, hdec, hfind, hP, Except.isOk, Except.toBool]
      · simp [update_password, hdec, hfind, hA, hP, Except.isOk, Except.toBool]

/-- Witness for C5: a PENDING account with a fresh, correctly signed reset
token gets its password replaced and its status set to ACTIVE. -/
theorem update_password_gate_witness :
    update_password "s" 0
        (.signed ⟨5, 0, "id1"⟩ (jwt_sign "s" ⟨5, 0, "id1"⟩)) "Newpass1"
        [samplePendingUser] =
      (.ok "User password updated; user accountStatus set to ACTIVE.",
       [samplePendingUser].map (fun v => if v.id == "id1" then
         { v with password := get_password_hash "Newpass1",
                  accountStatus := "ACTIVE" } else v)) :=
  (update_password_gate "s" 0
      (.signed ⟨5, 0, "id1"⟩ (jwt_sign "s" ⟨5, 0, "id1"⟩)) "Newpass1" "id1"
      [samplePendingUser] samplePendingUser rfl rfl).2.1 (Or.inr rfl)

/-- On an all-literal pattern, anchored matching is case-normalized
character-prefix comparison. -/
theorem matchHere_lits (sub : List Char) : ∀ s : List Char,
    matchHere true (sub.map RTok.lit) s =
      startsWithChars (sub.map Char.toLower) (s.map Char.toLower) := by
  induction sub with
  | nil => intro s; rfl
  | cons a ms ih =>
      intro s
      cases s with
      | nil => rfl
      | cons b cs => simp [matchHere, startsWithChars, rtokMatches, ih]

/-- On an all-literal pattern, unanchored search is case-normalized
substring containment. -/
theorem searchFrom_lits (sub : List Char) : ∀ s : List Char,
    searchFrom true (sub.map RTok.lit) s =
      hasSubChars (sub.map Char.toLower) (s.map Char.toLower) := by
  intro s
  induction s with
  | nil => simp [searchFrom, hasSubChars, matchHere_lits]
  | cons c cs ih => simp [searchFrom, hasSubChars, matchHere_lits, ih]

/-- A filter with no dot parses as a sequence of literal tokens. -/
theorem parseSimpleRegex_no_dot (f : String) (h : ∀ c ∈ f.toList, c ≠ '.') :
    parseSimpleRegex f = f.toList.map RTok.lit := by
  unfold parseSimpleRegex
  apply List.map_congr_left
  intro c hc
  simp [h c hc]

/-- A metacharacter-free filter behaves under `$regex` exactly as literal
case-insensitive substring containment. -/
theorem regex_search_literal (f s : String) (h : ∀ c ∈ f.toList, c ≠ '.') :
    regex_search true f s = spec_substring_ci f s := by
  unfold regex_search spec_substring_ci
  rw [parseSimpleRegex_no_dot f h, searchFrom_lits]

/-- Counterexample to C6: the filter "." (a regex wildcard, since the
filter string reaches `$regex` unescaped) selects the record whose
firstName is "a", although "a" does not contain "." as a substring — the
match predicate does not select exactly the case-insensitive-substring
matches. -/
theorem filter_dot_matches_nonsubstring :
    user_match_query (some ".") none none sampleUserA = true ∧
    spec_substring_ci "." sampleUserA.firstName = false :=
  ⟨rfl, rfl⟩

/-- Claim C6 as amended: each supplied field filter is interpreted as a
case-insensitive regex pattern, not literally; only for filter strings
free of regex metacharacters does the predicate coincide with
case-insensitive substring containment, and an absent or empty filter
matches all records. -/
theorem user_filters_are_regex (f : String) (u : UserRecord)
    (hmeta : ∀ c ∈ f.toList, c ∉ pcre_meta) (hne : f.isEmpty = false) :
    user_match_query (some f) none none u = spec_substring_ci f u.firstName ∧
    user_match_query none (some f) none u = spec_substring_ci f u.lastName ∧
    user_match_query none none (some f) u = spec_substring_ci f u.companyName ∧
    (∀ v : UserRecord, user_match_query (some "") none none v = true ∧
        user_match_query none none none v = true) := by
  have hdot : ∀ c ∈ f.toList, c ≠ '.' := by
    intro c hc hcd
    exact hmeta c hc (by rw [hcd]; simp [pcre_meta])
  refine ⟨?_, ?_, ?_, fun v => ⟨rfl, rfl⟩⟩
  · simp [user_match_query, hne, regex_search_literal f u.firstName hdot]
  · simp [user_match_query, hne, regex_search_literal f u.lastName hdot]
  · simp [user_match_query, hne, regex_search_literal f u.companyName hdot]

/-- Witness for the amended C6 at the metacharacter-free filter "bo"
against `sampleUserA` (lastName "Bobbit"): the predicate agrees with
case-insensitive substring containment. -/
theorem user_filters_are_regex_witness :
    user_match_query none (some "bo") none sampleUserA =
      spec_substring_ci "bo" sampleUserA.lastName :=
  (user_filters_are_regex "bo" sampleUserA (by decide) (by decide)).2.1

/-- Counterexample to C7: a request with pageSize = 0 is not rejected with
a validation error — the query plan is built anyway (skip 0, limit 0) and
the failure only appears at execution time as a 500. -/
theorem pageSize_zero_builds_plan :
    get_users_plan 1 0 none none none =
      { firstName := none, lastName := none, companyName := none,
        skip := 0, limit := 0 } ∧
    get_users_listing 1 0 none none none [] =
      .error (500, "the limit must be positive") :=
  ⟨rfl, rfl⟩

/-- Claim C7 as amended: pageSize is never validated — the plan always
carries skip = (page-1)*pageSize and limit = pageSize, a non-positive
pageSize surfaces as an execution error mapped to 500 rather than a
validation error, and for positive page and pageSize a page beyond the
available count returns an empty page without error. -/
theorem listing_pagination (page pageSize : Int)
    (fN lN cN : Option String) (db : List UserRecord) :
    (get_users_plan page pageSize fN lN cN).skip = (page - 1) * pageSize ∧
    (get_users_plan page pageSize fN lN cN).limit = pageSize ∧
    (pageSize ≤ 0 →
        get_users_listing page pageSize fN lN cN db =
          .error (500, "the limit must be positive")) ∧
    (0 < pageSize → 0 < page →
        (db.filter (user_match_query fN lN cN)).length ≤
          ((page - 1) * pageSize).toNat →
        get_users_listing page pageSize fN lN cN db =
          .ok ([], (db.filter (user_match_query fN lN cN)).length)) := by
  refine ⟨rfl, rfl, ?_, ?_⟩
  · intro hps
    simp [get_users_listing, run_users_plan, get_users_plan, hps]
  · intro hps hpage hlen
    have h1 : ¬ pageSize ≤ 0 := by omega
    have h2 : ¬ ((page - 1) * pageSize < 0) := by
      have : (0 : Int) ≤ (page - 1) * pageSize :=
        mul_nonneg (by omega) (by omega)
      omega
    have h3 : (db.filter (user_match_query fN lN cN)).drop
        ((page - 1) * pageSize).toNat = [] :=
      List.drop_eq_nil_of_le hlen
    simp [get_users_listing, run_users_plan, get_users_plan, h1, h2, h3]

/-- Witness for the amended C7: on an empty store, page 5 of size 2 is an
empty page with total 0, and pageSize 0 is a 500 execution failure. -/
theorem listing_pagination_witness :
    get_users_listing 5 2 none none none [] = .ok ([], 0) ∧
    get_users_listing 2 0 none none none [] =
      .error (500, "the limit must be positive") :=
  ⟨(listing_pagination 5 2 none none none []).2.2.2
      (by decide) (by decide) (by decide),
   (listing_pagination 2 0 none none none []).2.2.1 (by decide)⟩
